import Mathlib

/-!
Verification of the two notebooks of this repository against their
specification.

Part 1 embeds the Reptile meta-learning loop of
`notebooks/8-MetaLearning/2-Reptile-Sines-PyTorch.ipynb`.  Model parameters
(`model.state_dict()`) are mapped as functions from a parameter name and a
tensor index to a rational number; the inner SGD step, whose gradient
computation is delegated to the autodiff library (declared out of scope by
the spec), is an abstract function argument, while all of the control flow
written in the notebook itself (snapshot, inner epoch loop over minibatches, linear outer
step-size schedule, interpolation update, plotting branch) is embedded
concretely.

Part 2 embeds the style-transfer loss functions of
`notebooks/2-CNN/6-StyleTransfer/4-Art-Style-Transfer-inception_tf.ipynb`:
`gram_matrix`, `content_loss`, `style_loss`, `total_variation_loss_lX` and
the assembly of `total_loss`.  Activation tensors are NHWC functions into ℚ
(the total-variation term, which raises to the power 1.25, lives in ℝ).
-/

namespace Reptile

/-- A parameter mapping (`model.state_dict()` in the notebook): a map
from parameter name and tensor index to a scalar value. -/
def Params (Name Ix : Type) : Type := Name → Ix → ℚ

/-- The interpolation update `model.load_state_dict({name :
weights_before[name] + (weights_after[name]-weights_before[name])*outer_stepsize
for name in weights_before})`, applied elementwise on each tensor. -/
def metaUpdate {Name Ix : Type} (weights_before weights_after : Params Name Ix)
    (s : ℚ) : Params Name Ix :=
  fun name ix =>
    weights_before name ix + (weights_after name ix - weights_before name ix) * s

/-- `outer_stepsize0 = 0.1`, the initial stepsize of the outer optimization. -/
def outer_stepsize0 : ℚ := 1 / 10

/-- `outer_steps = 10000`, the number of outer updates. -/
def outer_steps : ℕ := 10000

/-- `outer_stepsize = outer_stepsize0*(1-outer_step/outer_steps)`, the linear
schedule computed each outer iteration (Python 3 true division). -/
def outer_stepsize (rate : ℚ) (outer_step N : ℕ) : ℚ :=
  rate * (1 - (outer_step : ℚ) / (N : ℚ))

/-- The condition guarding the plotting branch:
`plot and outer_step==0 or (outer_step+1) % 1000 == 0`
(Python precedence: `and` binds tighter than `or`). -/
def plotCond (plot : Bool) (outer_step : ℕ) : Bool :=
  (plot && (outer_step == 0)) || ((outer_step + 1) % 1000 == 0)

/-- The plotting branch of the outer loop: it snapshots the weights
(`weights_before = deepcopy(model.state_dict())`), runs 32 inner training
steps on the fixed visualization minibatch (mutating the model, here the
first component, used for the plots and the printed loss), and finally
restores the snapshot (`model.load_state_dict(weights_before)`, the second
component, which is the model state the branch leaves behind). -/
def plotBranchRun {Name Ix : Type} (trainStep : Params Name Ix → Params Name Ix)
    (W : Params Name Ix) : Params Name Ix × Params Name Ix :=
  let weights_before := W
  let trained := trainStep^[32] W
  (trained, weights_before)

/-- One iteration of the Reptile training loop, with the inner SGD adaptation
abstracted as `innerTrain` (its gradient arithmetic is delegated to the
autodiff library) and the single-batch training step of the plotting branch
abstracted as `plotStep`: snapshot the weights, adapt, interpolate with the
scheduled outer step size, then possibly run the (state-preserving) plotting
branch. -/
def loopBody {Name Ix : Type} (innerTrain : Params Name Ix → Params Name Ix)
    (plotStep : Params Name Ix → Params Name Ix) (plot : Bool)
    (outer_step N : ℕ) (rate : ℚ) (W : Params Name Ix) : Params Name Ix :=
  let weights_before := W
  let weights_after := innerTrain W
  let s := outer_stepsize rate outer_step N
  let updated := metaUpdate weights_before weights_after s
  if plotCond plot outer_step then (plotBranchRun plotStep updated).2 else updated

/-- The parameter names of the model
`nn.Sequential(nn.Linear(1,64), nn.Tanh(), nn.Linear(64,64), nn.Tanh(),
nn.Linear(64,1))`: weight and bias of each of the three linear layers. -/
inductive PName : Type
  | w1 | b1 | w2 | b2 | w3 | b3
  deriving DecidableEq

/-- Tensor index space for the model parameters.  Every tensor of the model
fits inside a 64×64 grid: the (64,1) weight and (64,) bias of the first layer
use index (j,0), the (64,64) weight of the second layer uses (j,k), the
(1,64) weight of the last layer uses (0,k), and its (1,) bias uses (0,0). -/
abbrev NetIx : Type := Fin 64 × Fin 64

/-- The forward pass of the model on a scalar input, over an abstract
activation `σ` standing for `nn.Tanh()` (the numerical library computes it):
`Linear(1,64) → Tanh → Linear(64,64) → Tanh → Linear(64,1)`. -/
def forward (σ : ℚ → ℚ) (W : Params PName NetIx) (x : ℚ) : ℚ :=
  let h1 : Fin 64 → ℚ := fun j => σ (W PName.w1 (j, 0) * x + W PName.b1 (j, 0))
  let h2 : Fin 64 → ℚ :=
    fun j => σ ((∑ k, W PName.w2 (j, k) * h1 k) + W PName.b2 (j, 0))
  (∑ k, W PName.w3 (0, k) * h2 k) + W PName.b3 (0, 0)

/-- `x_all = np.linspace(-5, 5, 50)`: the fixed input grid. -/
def x_all (i : Fin 50) : ℚ := -5 + 10 * (i : ℚ) / 49

/-- `gen_task` returns `lambda x: np.sin(x+phase)*ampl`, with the library
sine abstracted as `sinFn` and the sampled `phase`, `ampl` made explicit. -/
def gen_task (sinFn : ℚ → ℚ) (phase ampl : ℚ) : ℚ → ℚ :=
  fun x => sinFn (x + phase) * ampl

/-- The minibatches of one inner adaptation: `inds` is the shuffled index
list (`rng.permutation(len(x_all))`) and each batch takes ten consecutive
shuffled indices (`range(0, len(x_all), inner_batchsize)` with
`inner_batchsize = 10`), pairing each `x_all` point with the task value. -/
def taskBatches (inds : List (Fin 50)) (f : ℚ → ℚ) : List (List (ℚ × ℚ)) :=
  (List.range 5).map fun b =>
    ((inds.drop (b * 10)).take 10).map fun i => (x_all i, f (x_all i))

/-- One inner epoch: fold the abstract SGD minibatch step
(`train_current_model_on_batch`, whose gradient arithmetic is the
out-of-scope autodiff call) over the batches in order. -/
def trainEpoch {P : Type} (step : P → List (ℚ × ℚ) → P)
    (batches : List (List (ℚ × ℚ))) (W : P) : P :=
  batches.foldl step W

/-- The inner adaptation `for _ in range(inner_epochs): ...`: iterate the
epoch over the same shuffled batches `inner_epochs` times. -/
def innerTraining {P : Type} (step : P → List (ℚ × ℚ) → P)
    (batches : List (List (ℚ × ℚ))) (inner_epochs : ℕ) (W : P) : P :=
  (trainEpoch step batches)^[inner_epochs] W

/-- One outer iteration of the Reptile loop instantiated at the concrete
model and task pipeline: snapshot, sample the task dataset, run the inner
minibatch SGD for `inner_epochs` epochs, and interpolate with the scheduled
outer step size. -/
def reptileIteration (sinFn : ℚ → ℚ) (phase ampl : ℚ)
    (step : Params PName NetIx → List (ℚ × ℚ) → Params PName NetIx)
    (inds : List (Fin 50)) (inner_epochs outer_step N : ℕ) (rate : ℚ)
    (W : Params PName NetIx) : Params PName NetIx :=
  let weights_before := W
  let f := gen_task sinFn phase ampl
  let weights_after := innerTraining step (taskBatches inds f) inner_epochs W
  metaUpdate weights_before weights_after (outer_stepsize rate outer_step N)

end Reptile

namespace StyleTransfer

/-- A 4-dimensional activation tensor in the NHWC layout of TensorFlow:
batch, height, width, feature channel. -/
abbrev ActTensor (B H W C : ℕ) : Type := Fin B → Fin H → Fin W → Fin C → ℚ

/-- `matrix = tf.reshape(tensor, shape=[-1, num_channels])`: the tensor seen
as a matrix whose rows enumerate the (batch, height, width) positions and
whose columns are the feature channels. -/
def toMatrix {B H W C : ℕ} (t : ActTensor B H W C) :
    Matrix (Fin B × Fin H × Fin W) (Fin C) ℚ :=
  fun r c => t r.1 r.2.1 r.2.2 c

/-- `gram = tf.matmul(tf.transpose(matrix), matrix)`: the Gram matrix of the
feature channels of a 4-dimensional activation tensor. -/
def gram_matrix {B H W C : ℕ} (t : ActTensor B H W C) :
    Matrix (Fin C) (Fin C) ℚ :=
  Matrix.transpose (toMatrix t) * toMatrix t

/-- `content_loss(P, X, layer) = 1./2. * tf.reduce_mean(tf.square(x - p))`,
over the flattened elements of the equal-shaped activation tensors
(`tf.reduce_mean` is the sum over all entries divided by their number). -/
def content_loss {ι : Type} [Fintype ι] (p x : ι → ℚ) : ℚ :=
  1 / 2 * ((∑ i, (x i - p i) ^ 2) / (Fintype.card ι : ℚ))

/-- The mean squared error between two equal-shaped tensors, modelled from
the wording of the spec (`mean((x - p)^2)`), to be compared with
`content_loss` as the code computes it. -/
def meanSquaredError {ι : Type} [Fintype ι] (p x : ι → ℚ) : ℚ :=
  (∑ i, (x i - p i) ^ 2) / (Fintype.card ι : ℚ)

/-- `style_loss(S, X, layer)`: with `S_gram`, `X_gram` the Gram matrices of
the captured style activations `s` and the current activations `x`,
`N = layer_shape[1]` (the height) and `M = layer_shape[2]*layer_shape[3]`
(width times channels), the loss is
`tf.reduce_mean(tf.square(X_gram - S_gram)) / (4. * N^2 * M^2)`. -/
def style_loss {B H W C : ℕ} (s x : ActTensor B H W C) : ℚ :=
  ((∑ i, ∑ j, (gram_matrix x i j - gram_matrix s i j) ^ 2)
      / ((C : ℚ) * (C : ℚ)))
    / (4 * ((H : ℚ) ^ 2 * ((W : ℚ) * (C : ℚ)) ^ 2))

/-- A spatial permutation of an activation map, applied identically across
the batch and channel dimensions. -/
def spatialPermute {B H W C : ℕ} (π : Equiv.Perm (Fin H × Fin W))
    (t : ActTensor B H W C) : ActTensor B H W C :=
  fun b h w c => t b (π (h, w)).1 (π (h, w)).2 c

/-- The pixel buffer being optimized: a (height, width, 3) image. -/
abbrev Image (h w : ℕ) : Type := Fin h → Fin w → Fin 3 → ℚ

/-- Inclusion of a sliced index: position `i` of a `[:-1]` slice, as an
index into the unsliced dimension. -/
def sliceLo {n : ℕ} (i : Fin (n - 1)) : Fin n :=
  ⟨i.1, lt_of_lt_of_le i.isLt (Nat.sub_le n 1)⟩

/-- Shifted inclusion of a sliced index: position `i` of a `[1:]` slice, as
an index into the unsliced dimension. -/
def sliceHi {n : ℕ} (i : Fin (n - 1)) : Fin n :=
  ⟨i.1 + 1, by have h := i.isLt; omega⟩

/-- `total_variation_loss_lX(x)`: the sum over the cropped pixel grid of
`(tf.square(x[1:,:-1,:] - x[:-1,:-1,:]) + tf.square(x[:,1:,:][:-1] ... ))`
raised to the power 1.25 — precisely,
`tf.reduce_sum(tf.pow(tf.square(x[1:,:-1,:] - x[:-1,:-1,:]) +
tf.square(x[:-1,1:,:] - x[:-1,:-1,:]), 1.25))`.  The real-valued power 1.25
forces this single definition into ℝ. -/
noncomputable def total_variation_loss_lX {h w : ℕ} (x : Image h w) : ℝ :=
  ∑ i : Fin (h - 1), ∑ j : Fin (w - 1), ∑ c : Fin 3,
    ((((x (sliceHi i) (sliceLo j) c - x (sliceLo i) (sliceLo j) c) ^ 2
        + (x (sliceLo i) (sliceHi j) c - x (sliceLo i) (sliceLo j) c) ^ 2 : ℚ)
      : ℝ) ^ (1.25 : ℝ))

/-- Flatten a 4-dimensional activation tensor to a family over all of its
entries, as `tf.reduce_mean` ranges over all entries. -/
def flatten4 {B H W C : ℕ} (t : ActTensor B H W C) :
    Fin B × Fin H × Fin W × Fin C → ℚ :=
  fun q => t q.1 q.2.1 q.2.2.1 q.2.2.2

/-- `cl = 10.`: the weight of the content-loss term. -/
def cl : ℚ := 10

/-- `sl = 2. * 1000. * 1000.`: the base weight of the style-loss terms. -/
def sl : ℚ := 2 * 1000 * 1000

/-- `vp = 10. / 1000. / 1000.`: the weight of the total-variation term. -/
def vp : ℚ := 10 / 1000 / 1000

/-- The `losses` list assembled in the notebook: one content term on layer
`Mixed_4b`, style terms on layers `Conv2d_1a_7x7`, `Conv2d_2c_3x3` (weight
`sl*1`) and `Mixed_3b`, `Mixed_4d` (weight `sl*10`), and the total-variation
term on the input pixel buffer.  The captured photo and style activations
are fixed tensors; the current activations of each layer
(`art_features[name] = end_points[name]`) are abstract functions of the
input image, the network forward pass being out of scope. -/
noncomputable def losses {h w Bc Hc Wc Cc B1 H1 W1 C1 B2 H2 W2 C2
    B3 H3 W3 C3 B4 H4 W4 C4 : ℕ}
    (photoMixed4b : ActTensor Bc Hc Wc Cc)
    (styleConv1 : ActTensor B1 H1 W1 C1) (styleConv2 : ActTensor B2 H2 W2 C2)
    (styleMixed3b : ActTensor B3 H3 W3 C3)
    (styleMixed4d : ActTensor B4 H4 W4 C4)
    (artMixed4b : Image h w → ActTensor Bc Hc Wc Cc)
    (artConv1 : Image h w → ActTensor B1 H1 W1 C1)
    (artConv2 : Image h w → ActTensor B2 H2 W2 C2)
    (artMixed3b : Image h w → ActTensor B3 H3 W3 C3)
    (artMixed4d : Image h w → ActTensor B4 H4 W4 C4)
    (x : Image h w) : List ℝ :=
  [((cl * 1 * content_loss (flatten4 photoMixed4b)
        (flatten4 (artMixed4b x)) : ℚ) : ℝ),
    ((sl * 1 * style_loss styleConv1 (artConv1 x) : ℚ) : ℝ),
    ((sl * 1 * style_loss styleConv2 (artConv2 x) : ℚ) : ℝ),
    ((sl * 10 * style_loss styleMixed3b (artMixed3b x) : ℚ) : ℝ),
    ((sl * 10 * style_loss styleMixed4d (artMixed4d x) : ℚ) : ℝ),
    ((vp * 1 : ℚ) : ℝ) * total_variation_loss_lX x]

/-- `total_loss = tf.reduce_sum(losses)`. -/
noncomputable def total_loss {h w Bc Hc Wc Cc B1 H1 W1 C1 B2 H2 W2 C2
    B3 H3 W3 C3 B4 H4 W4 C4 : ℕ}
    (photoMixed4b : ActTensor Bc Hc Wc Cc)
    (styleConv1 : ActTensor B1 H1 W1 C1) (styleConv2 : ActTensor B2 H2 W2 C2)
    (styleMixed3b : ActTensor B3 H3 W3 C3)
    (styleMixed4d : ActTensor B4 H4 W4 C4)
    (artMixed4b : Image h w → ActTensor Bc Hc Wc Cc)
    (artConv1 : Image h w → ActTensor B1 H1 W1 C1)
    (artConv2 : Image h w → ActTensor B2 H2 W2 C2)
    (artMixed3b : Image h w → ActTensor B3 H3 W3 C3)
    (artMixed4d : Image h w → ActTensor B4 H4 W4 C4)
    (x : Image h w) : ℝ :=
  (losses photoMixed4b styleConv1 styleConv2 styleMixed3b styleMixed4d
    artMixed4b artConv1 artConv2 artMixed3b artMixed4d x).sum

end StyleTransfer

namespace Reptile

/-- C1: for every outer iteration, writing `W_before` for the snapshot taken
at the start, `W_after = innerTrain W_before` for the weights after the inner
adaptation, and `s` for the outer step size of that iteration, the parameter
mapping at the end of the iteration equals, independently for every parameter
name and tensor index, `W_before + s * (W_after - W_before)`. -/
theorem loop_iteration_interpolates {Name Ix : Type}
    (innerTrain plotStep : Params Name Ix → Params Name Ix) (plot : Bool)
    (outer_step N : ℕ) (rate : ℚ) (W : Params Name Ix) (name : Name) (ix : Ix) :
    loopBody innerTrain plotStep plot outer_step N rate W name ix
      = W name ix
        + outer_stepsize rate outer_step N * (innerTrain W name ix - W name ix) := by
  simp only [loopBody, plotBranchRun]
  split <;> simp only [metaUpdate] <;> ring

/-- C2: the step size fed to the meta-update of outer iteration `i` equals
`initial_rate * (1 - i / N)`. -/
theorem meta_update_uses_linear_decay {Name Ix : Type}
    (innerTrain plotStep : Params Name Ix → Params Name Ix) (plot : Bool)
    (outer_step N : ℕ) (rate : ℚ) (W : Params Name Ix) :
    loopBody innerTrain plotStep plot outer_step N rate W
      = metaUpdate W (innerTrain W) (rate * (1 - (outer_step : ℚ) / (N : ℚ))) := by
  simp only [loopBody, plotBranchRun, outer_stepsize]
  split <;> rfl

/-- C3: with the hyperparameters of the notebook (`outer_stepsize0 = 0.1`,
`outer_steps = 10000 = N`), the outer step size is monotonically
non-increasing in the iteration index on `0 ≤ i ≤ N`, and at `i = N` it
equals exactly 0. -/
theorem outer_stepsize_monotone_and_zero_at_end (i j : ℕ) (hij : i ≤ j)
    (_hjN : j ≤ outer_steps) :
    outer_stepsize outer_stepsize0 j outer_steps
        ≤ outer_stepsize outer_stepsize0 i outer_steps
      ∧ outer_stepsize outer_stepsize0 outer_steps outer_steps = 0 := by
  constructor
  · simp only [outer_stepsize, outer_stepsize0, outer_steps]
    have h : (i : ℚ) ≤ (j : ℚ) := by exact_mod_cast hij
    push_cast
    linarith
  · simp only [outer_stepsize, outer_stepsize0, outer_steps]
    norm_num

/-- Witness for C3 at the concrete iteration indices 3 ≤ 5 ≤ 10000. -/
theorem outer_stepsize_monotone_and_zero_at_end_witness :
    3 ≤ 5 ∧ 5 ≤ outer_steps
      ∧ (outer_stepsize outer_stepsize0 5 outer_steps
            ≤ outer_stepsize outer_stepsize0 3 outer_steps
          ∧ outer_stepsize outer_stepsize0 outer_steps outer_steps = 0) :=
  ⟨by decide, by decide,
    outer_stepsize_monotone_and_zero_at_end 3 5 (by decide) (by decide)⟩

/-- C4: the interpolation update is exact at its endpoints: with step size 0
the mapping `W_before` is returned unchanged, and with step size 1 the
mapping `W_after` is returned exactly. -/
theorem meta_update_exact_at_endpoints {Name Ix : Type}
    (weights_before weights_after : Params Name Ix) :
    metaUpdate weights_before weights_after 0 = weights_before
      ∧ metaUpdate weights_before weights_after 1 = weights_after := by
  constructor
  · funext n i; simp [metaUpdate]
  · funext n i; simp [metaUpdate]

/-- C5: when the inner epoch count is 0, an outer iteration performs no
inner training steps, the parameter mapping after the meta-update equals the
initial mapping, and the predictions of the model on every input are
unchanged — for any sampled task (any `phase`, `ampl`, in particular
phase = 0 and amplitude = 3), any SGD step function and any activation. -/
theorem zero_inner_epochs_leaves_model_unchanged
    (sinFn : ℚ → ℚ) (phase ampl : ℚ)
    (step : Params PName NetIx → List (ℚ × ℚ) → Params PName NetIx)
    (inds : List (Fin 50)) (inner_epochs outer_step N : ℕ) (rate : ℚ)
    (W : Params PName NetIx) (h : inner_epochs = 0) :
    reptileIteration sinFn phase ampl step inds inner_epochs outer_step N rate W
        = W
      ∧ ∀ (σ : ℚ → ℚ) (x : ℚ),
          forward σ
              (reptileIteration sinFn phase ampl step inds inner_epochs
                outer_step N rate W) x
            = forward σ W x := by
  subst h
  have hW : reptileIteration sinFn phase ampl step inds 0 outer_step N rate W
      = W := by
    funext n i
    simp [reptileIteration, innerTraining, metaUpdate]
  exact ⟨hW, fun σ x => by rw [hW]⟩

/-- Witness for C5: the task with phase 0 and amplitude 3, zero inner
epochs, and concrete placeholder functions for the out-of-scope library
calls. -/
theorem zero_inner_epochs_leaves_model_unchanged_witness :
    (0 = 0)
      ∧ (reptileIteration (fun q => q) 0 3 (fun W _ => W) [] 0 0 10000 (1 / 10)
            (fun _ _ => 0) = (fun _ _ => 0)
          ∧ ∀ (σ : ℚ → ℚ) (x : ℚ),
              forward σ
                  (reptileIteration (fun q => q) 0 3 (fun W _ => W) [] 0 0
                    10000 (1 / 10) (fun _ _ => 0)) x
                = forward σ (fun _ _ => 0) x) :=
  ⟨rfl,
    zero_inner_epochs_leaves_model_unchanged (fun q => q) 0 3 (fun W _ => W)
      [] 0 0 10000 (1 / 10) (fun _ _ => 0) rfl⟩

/-- C9: the plotting branch leaves the meta-training state unchanged: it
returns exactly the snapshot taken at entry, even though the model state
used for its plots is the result of 32 inner training steps. -/
theorem plot_branch_restores_snapshot {Name Ix : Type}
    (trainStep : Params Name Ix → Params Name Ix) (W : Params Name Ix) :
    (plotBranchRun trainStep W).2 = W
      ∧ (plotBranchRun trainStep W).1 = trainStep^[32] W :=
  ⟨rfl, rfl⟩


end Reptile

namespace StyleTransfer

/-- Entries of the Gram matrix: dot products of two feature channels over
all rows of the reshaped matrix. -/
theorem gram_matrix_apply {B H W C : ℕ} (t : ActTensor B H W C) (i j : Fin C) :
    gram_matrix t i j = ∑ r, toMatrix t r i * toMatrix t r j := by
  simp [gram_matrix, Matrix.mul_apply, Matrix.transpose_apply]

/-- C6: the Gram matrix, and hence the style loss, is invariant under any
permutation of the spatial positions of an activation map that is applied
identically across channels (and across the batch dimension). -/
theorem gram_and_style_loss_spatial_perm_invariant {B H W C : ℕ}
    (s t : ActTensor B H W C) (π : Equiv.Perm (Fin H × Fin W)) :
    gram_matrix (spatialPermute π t) = gram_matrix t
      ∧ style_loss s (spatialPermute π t) = style_loss s t := by
  have hg : gram_matrix (spatialPermute π t) = gram_matrix t := by
    ext i j
    rw [gram_matrix_apply, gram_matrix_apply]
    exact Equiv.sum_comp (Equiv.prodCongr (Equiv.refl (Fin B)) π)
      (fun r => toMatrix t r i * toMatrix t r j)
  refine ⟨hg, ?_⟩
  unfold style_loss
  rw [hg]

/-- Counterexample to C7 as stated: on the one-element tensors p = 0, x = 1
the value of `content_loss` is 1/2 while the mean squared error is 1. -/
theorem content_loss_not_mse_counterexample :
    content_loss (fun _ : Fin 1 => (0 : ℚ)) (fun _ => 1)
      ≠ meanSquaredError (fun _ : Fin 1 => (0 : ℚ)) (fun _ => 1) := by
  simp [content_loss, meanSquaredError]

/-- C7 amended: `content_loss` returns HALF the mean squared error between
the current and the captured content-layer activations,
`1/2 * mean((x - p)^2)`. -/
theorem content_loss_is_half_mse {ι : Type} [Fintype ι] (p x : ι → ℚ) :
    content_loss p x = 1 / 2 * meanSquaredError p x := rfl

/-- C10: the Gram matrix of a 4-dimensional activation tensor is of the form
Mᵀ·M for M the tensor reshaped to rows-by-channels; consequently it is
symmetric and positive semidefinite (its quadratic form is nonnegative). -/
theorem gram_matrix_symm_posSemidef {B H W C : ℕ} (t : ActTensor B H W C) :
    gram_matrix t = Matrix.transpose (toMatrix t) * toMatrix t
      ∧ (∀ i j, gram_matrix t i j = gram_matrix t j i)
      ∧ ∀ v : Fin C → ℚ, 0 ≤ ∑ i, ∑ j, v i * gram_matrix t i j * v j := by
  refine ⟨rfl, ?_, ?_⟩
  · intro i j
    rw [gram_matrix_apply, gram_matrix_apply]
    exact Finset.sum_congr rfl fun r _ => mul_comm _ _
  · intro v
    have key : (∑ i, ∑ j, v i * gram_matrix t i j * v j)
        = ∑ r, (∑ i, v i * toMatrix t r i) ^ 2 := by
      have expand : (∑ i, ∑ j, v i * gram_matrix t i j * v j)
          = ∑ i, ∑ j, ∑ r, v i * (toMatrix t r i * toMatrix t r j) * v j := by
        refine Finset.sum_congr rfl fun i _ => Finset.sum_congr rfl fun j _ => ?_
        rw [gram_matrix_apply, Finset.mul_sum, Finset.sum_mul]
      rw [expand]
      calc (∑ i, ∑ j, ∑ r, v i * (toMatrix t r i * toMatrix t r j) * v j)
          = ∑ i, ∑ r, ∑ j, v i * (toMatrix t r i * toMatrix t r j) * v j :=
            Finset.sum_congr rfl fun i _ => Finset.sum_comm
        _ = ∑ r, ∑ i, ∑ j, v i * (toMatrix t r i * toMatrix t r j) * v j :=
            Finset.sum_comm
        _ = ∑ r, (∑ i, v i * toMatrix t r i) ^ 2 := by
            refine Finset.sum_congr rfl fun r _ => ?_
            rw [sq, Fintype.sum_mul_sum]
            exact Finset.sum_congr rfl fun i _ =>
              Finset.sum_congr rfl fun j _ => by ring
    rw [key]
    exact Finset.sum_nonneg fun r _ => sq_nonneg _


/-- C8: the total style-transfer loss equals a weighted sum of exactly one
content-loss term on the content layer (weight 10), one style-loss term for
each of the four style layers (weights 2000000, 2000000, 20000000, 20000000,
each positive) and one total-variation penalty on the pixel buffer (weight
1/100000); no other term contributes. -/
theorem total_loss_is_weighted_sum {h w Bc Hc Wc Cc B1 H1 W1 C1 B2 H2 W2 C2
    B3 H3 W3 C3 B4 H4 W4 C4 : ℕ}
    (photoMixed4b : ActTensor Bc Hc Wc Cc)
    (styleConv1 : ActTensor B1 H1 W1 C1) (styleConv2 : ActTensor B2 H2 W2 C2)
    (styleMixed3b : ActTensor B3 H3 W3 C3)
    (styleMixed4d : ActTensor B4 H4 W4 C4)
    (artMixed4b : Image h w → ActTensor Bc Hc Wc Cc)
    (artConv1 : Image h w → ActTensor B1 H1 W1 C1)
    (artConv2 : Image h w → ActTensor B2 H2 W2 C2)
    (artMixed3b : Image h w → ActTensor B3 H3 W3 C3)
    (artMixed4d : Image h w → ActTensor B4 H4 W4 C4)
    (x : Image h w) :
    total_loss photoMixed4b styleConv1 styleConv2 styleMixed3b styleMixed4d
        artMixed4b artConv1 artConv2 artMixed3b artMixed4d x
      = 10 * ((content_loss (flatten4 photoMixed4b)
            (flatten4 (artMixed4b x)) : ℚ) : ℝ)
        + 2000000 * ((style_loss styleConv1 (artConv1 x) : ℚ) : ℝ)
        + 2000000 * ((style_loss styleConv2 (artConv2 x) : ℚ) : ℝ)
        + 20000000 * ((style_loss styleMixed3b (artMixed3b x) : ℚ) : ℝ)
        + 20000000 * ((style_loss styleMixed4d (artMixed4d x) : ℚ) : ℝ)
        + 1 / 100000 * total_variation_loss_lX x := by
  simp only [total_loss, losses, List.sum_cons, List.sum_nil, cl, sl, vp]
  push_cast
  ring

end StyleTransfer
